import Mathlib

/-!
Verification of the glengine OpenGL wrapper classes (Window, Shader, Mesh,
Texture).  Each C++ member function is shallowly embedded as a Lean function
over an explicit environment describing the GL driver, the windowing library
and the filesystem; the functions return the constructed object together with
the ordered trace of GL/library calls they issue and the lines they print to
the standard error / standard output streams.
-/

namespace GLEngine

/-- Bit pattern of a 32-bit IEEE float.  The wrappers never compute with
float values, they only pass them through to the driver, so the pattern is
carried opaquely. -/
abbrev GLfloat := Nat

/- GL and GLFW enumeration constants (values as in the glad/GLFW headers). -/

def GL_VERTEX_SHADER : Nat := 0x8B31

def GL_FRAGMENT_SHADER : Nat := 0x8B30

def GL_COMPILE_STATUS : Nat := 0x8B81

def GL_LINK_STATUS : Nat := 0x8B82

def GL_ARRAY_BUFFER : Nat := 0x8892

def GL_ELEMENT_ARRAY_BUFFER : Nat := 0x8893

def GL_STATIC_DRAW : Nat := 0x88E4

def GL_FLOAT : Nat := 0x1406

def GL_TEXTURE_2D : Nat := 0x0DE1

def GL_TEXTURE_WRAP_S : Nat := 0x2802

def GL_TEXTURE_WRAP_T : Nat := 0x2803

def GL_TEXTURE_MIN_FILTER : Nat := 0x2801

def GL_TEXTURE_MAG_FILTER : Nat := 0x2800

def GL_REPEAT : Nat := 0x2901

def GL_LINEAR : Nat := 0x2601

def GL_RGB : Nat := 0x1907

def GL_UNSIGNED_BYTE : Nat := 0x1401

def GLFW_CONTEXT_VERSION_MAJOR : Nat := 0x00022002

def GLFW_CONTEXT_VERSION_MINOR : Nat := 0x00022003

def GLFW_OPENGL_PROFILE : Nat := 0x00022008

def GLFW_OPENGL_CORE_PROFILE : Nat := 0x00032001

/-- One GL / GLFW / stb_image call, as recorded in a trace. -/
inductive GLCall where
  | glfwInit
  | glfwWindowHint (target value : Nat)
  | glfwCreateWindow (width height : Int) (title : String)
  | glfwTerminate
  | glfwMakeContextCurrent (handle : Nat)
  | gladLoadGLLoader
  | glViewport (x y w h : Int)
  | glfwSetFramebufferSizeCallback (handle : Nat)
  | glCreateShader (stage : Nat)
  | glShaderSource (shader count : Nat) (src : String)
  | glCompileShader (shader : Nat)
  | glGetShaderiv (shader pname : Nat)
  | glGetShaderInfoLog (shader bufSize : Nat)
  | glCreateProgram
  | glAttachShader (prog shader : Nat)
  | glLinkProgram (prog : Nat)
  | glGetProgramiv (prog pname : Nat)
  | glGetProgramInfoLog (prog bufSize : Nat)
  | glDeleteShader (shader : Nat)
  | glUseProgram (prog : Nat)
  | glGetUniformLocation (prog : Nat) (name : String)
  | glUniform1i (location : Int) (value : Int)
  | glUniform1f (location : Int) (value : GLfloat)
  | glGenVertexArrays (n handle : Nat)
  | glGenBuffers (n handle : Nat)
  | glBindVertexArray (handle : Nat)
  | glBindBuffer (target handle : Nat)
  | glBufferDataF (target size : Nat) (data : List GLfloat) (usage : Nat)
  | glBufferDataU (target size : Nat) (data : List Nat) (usage : Nat)
  | glVertexAttribPointer (index size typ : Nat) (normalized : Bool) (stride offset : Nat)
  | glEnableVertexAttribArray (index : Nat)
  | glDeleteVertexArrays (n handle : Nat)
  | glDeleteBuffers (n handle : Nat)
  | glGenTextures (n handle : Nat)
  | glDeleteTextures (n handle : Nat)
  | glBindTexture (target handle : Nat)
  | glActiveTexture (unit : Nat)
  | glTexParameteri (target pname param : Nat)
  | stbiSetFlipVerticallyOnLoad (flag : Bool)
  | stbiLoad (path : String)
  | glTexImage2D (target level internalformat : Nat) (w h : Int)
      (border format typ : Nat)
  | glGenerateMipmap (target : Nat)
  | stbiImageFree
  deriving DecidableEq, Repr

/- Error / status messages printed by the wrappers, verbatim from the source. -/

def MSG_FILE_READ_FAIL : String := "ERROR::SHADER::FILE_NOT_SUCCESFULLY_READ"

def MSG_VERTEX_COMPILE_FAIL : String := "ERROR::SHADER::VERTEX::COMPILATION_FAILED\n"

def MSG_FRAGMENT_COMPILE_FAIL : String := "ERROR::SHADER::FRAGMENT::COMPILATION_FAILED\n"

def MSG_LINK_FAIL : String := "ERROR::SHADER::PROGRAM::LINKING_FAILED\n"

def MSG_GLFW_INIT_FAIL : String := "Failed to initialize GLFW"

def MSG_GLFW_WINDOW_FAIL : String := "Failed to create GLFW window"

def MSG_GLAD_FAIL : String := "Failed to initialize GLAD"

def MSG_TEXTURE_FAIL : String := "Failed to load texture"

def MSG_TEXTURE_LOADED : String := "loaded texture: "

/-- The filesystem as seen through std::ifstream: a path either opens and
yields its full text, or fails to open (failbit raised on open). -/
structure FileSys where
  readFile : String → Option String

/-- The GL driver state the Shader constructor interacts with: the handles
glCreateShader / glCreateProgram hand out, the compile / link status flags
glGetShaderiv / glGetProgramiv report, the info-log texts, and the mapping
from names to locations of active uniforms (glGetUniformLocation returns -1
for a name that matches no active uniform). -/
structure GLDriver where
  vsHandle : Nat
  fsHandle : Nat
  progHandle : Nat
  vertexCompileOk : Bool
  fragmentCompileOk : Bool
  vertexInfoLog : String
  fragmentInfoLog : String
  linkOk : Bool
  linkInfoLog : String
  activeUniforms : String → Option Int

/-- `glGetShaderInfoLog` / `glGetProgramInfoLog` with buffer size `bufSize`
write at most `bufSize - 1` characters of the log into the buffer (the last
byte is the NUL terminator). -/
def infoLogRead (log : String) (bufSize : Nat) : String :=
  String.mk (log.data.take (bufSize - 1))

/-- The Shader class: one member, the program handle `ID`. -/
structure Shader where
  ID : Nat
  deriving DecidableEq, Repr

/-- Result of running the Shader constructor: the constructed object, the
lines printed to std::cerr, and the trace of GL calls. -/
structure ShaderCtorResult where
  shader : Shader
  stderrLog : List String
  calls : List GLCall
  deriving DecidableEq, Repr

/-- The file-reading block of the Shader constructor.  The two ifstreams have
failbit/badbit exceptions enabled; the try block opens the vertex file, opens
the fragment file, reads both, and only then assigns `vertexCode` and
`fragmentCode`.  Hence if either open fails the exception skips both
assignments, both code strings stay empty, and one
ERROR::SHADER::FILE_NOT_SUCCESFULLY_READ line is printed. -/
def readShaderPair (fs : FileSys) (vertexPath fragmentPath : String) :
    String × String × List String :=
  match fs.readFile vertexPath with
  | none => ("", "", [MSG_FILE_READ_FAIL])
  | some vcode =>
    match fs.readFile fragmentPath with
    | none => ("", "", [MSG_FILE_READ_FAIL])
    | some fcode => (vcode, fcode, [])

/-- `Shader::Shader(vertexPath, fragmentPath)`: read both files (degrading to
empty strings on failure), compile each stage, log the (512-byte-buffer
truncated) info log when a compile status flag reports failure, link the two
stages unconditionally, log identically on link failure, delete the two stage
objects, and return the object carrying the program handle.  No failure
aborts construction. -/
def Shader.construct (fs : FileSys) (gl : GLDriver)
    (vertexPath fragmentPath : String) : ShaderCtorResult :=
  let rd := readShaderPair fs vertexPath fragmentPath
  let vShaderCode := rd.1
  let fShaderCode := rd.2.1
  let vertexShader := gl.vsHandle
  let fragmentShader := gl.fsHandle
  let progID := gl.progHandle
  { shader := ⟨progID⟩
    stderrLog :=
      rd.2.2
      ++ (if gl.vertexCompileOk then [] else
            [MSG_VERTEX_COMPILE_FAIL ++ infoLogRead gl.vertexInfoLog 512])
      ++ (if gl.fragmentCompileOk then [] else
            [MSG_FRAGMENT_COMPILE_FAIL ++ infoLogRead gl.fragmentInfoLog 512])
      ++ (if gl.linkOk then [] else
            [MSG_LINK_FAIL ++ infoLogRead gl.linkInfoLog 512])
    calls :=
      [.glCreateShader GL_VERTEX_SHADER,
       .glShaderSource vertexShader 1 vShaderCode,
       .glCompileShader vertexShader,
       .glGetShaderiv vertexShader GL_COMPILE_STATUS]
      ++ (if gl.vertexCompileOk then [] else
            [.glGetShaderInfoLog vertexShader 512])
      ++ [.glCreateShader GL_FRAGMENT_SHADER,
          .glShaderSource fragmentShader 1 fShaderCode,
          .glCompileShader fragmentShader,
          .glGetShaderiv fragmentShader GL_COMPILE_STATUS]
      ++ (if gl.fragmentCompileOk then [] else
            [.glGetShaderInfoLog fragmentShader 512])
      ++ [.glCreateProgram,
          .glAttachShader progID vertexShader,
          .glAttachShader progID fragmentShader,
          .glLinkProgram progID,
          .glGetProgramiv progID GL_LINK_STATUS]
      ++ (if gl.linkOk then [] else
            [.glGetProgramInfoLog progID 512])
      ++ [.glDeleteShader vertexShader,
          .glDeleteShader fragmentShader] }

/-- The GL state a program's uniform setters act on: the per-location values
of the active program's uniforms.  Locations are `Int` because
glGetUniformLocation returns -1 for an unknown name. -/
inductive UniformVal where
  | ival (v : Int)
  | fval (v : GLfloat)
  deriving DecidableEq, Repr

/-- Association-list update, used to model a uniform write at a location. -/
def setAssoc (l : List (Int × UniformVal)) (k : Int) (v : UniformVal) :
    List (Int × UniformVal) :=
  match l with
  | [] => [(k, v)]
  | (k2, v2) :: rest =>
    if k2 = k then (k, v) :: rest else (k2, v2) :: setAssoc rest k v

/-- The uniform store of the active program. -/
structure GLState where
  uniforms : List (Int × UniformVal)
  deriving DecidableEq, Repr

/-- `glGetUniformLocation(prog, name)`: the location of an active uniform, or
-1 when the name matches no active uniform. -/
def lookupUniformLocation (gl : GLDriver) (name : String) : Int :=
  match gl.activeUniforms name with
  | none => -1
  | some loc => loc

/-- `glUniform1i(location, value)`: writes the value at the location; with
location -1 (name not found) the driver silently ignores the call. -/
def glUniform1iImpl (st : GLState) (location : Int) (value : Int) : GLState :=
  if location = -1 then st else ⟨setAssoc st.uniforms location (.ival value)⟩

/-- `glUniform1f(location, value)`: float variant of the same driver rule. -/
def glUniform1fImpl (st : GLState) (location : Int) (value : GLfloat) :
    GLState :=
  if location = -1 then st else ⟨setAssoc st.uniforms location (.fval value)⟩

/-- `Shader::setBool(name, value)`: look the location up by name (fresh call,
nothing cached), cast the bool to int, write via glUniform1i. -/
def Shader.setBool (sh : Shader) (gl : GLDriver) (name : String)
    (value : Bool) (st : GLState) : GLState × List GLCall :=
  let loc := lookupUniformLocation gl name
  let iv : Int := if value then 1 else 0
  (glUniform1iImpl st loc iv,
   [.glGetUniformLocation sh.ID name, .glUniform1i loc iv])

/-- `Shader::setInt(name, value)`: fresh lookup, then glUniform1i. -/
def Shader.setInt (sh : Shader) (gl : GLDriver) (name : String)
    (value : Int) (st : GLState) : GLState × List GLCall :=
  let loc := lookupUniformLocation gl name
  (glUniform1iImpl st loc value,
   [.glGetUniformLocation sh.ID name, .glUniform1i loc value])

/-- `Shader::setFloat(name, value)`: fresh lookup, then glUniform1f. -/
def Shader.setFloat (sh : Shader) (gl : GLDriver) (name : String)
    (value : GLfloat) (st : GLState) : GLState × List GLCall :=
  let loc := lookupUniformLocation gl name
  (glUniform1fImpl st loc value,
   [.glGetUniformLocation sh.ID name, .glUniform1f loc value])

/-- The GLFW / glad environment the Window constructor runs against:
whether glfwInit succeeds, the window handle glfwCreateWindow returns (none
for NULL), and whether gladLoadGLLoader succeeds. -/
structure GLFWEnv where
  glfwInitOk : Bool
  createdWindow : Option Nat
  gladOk : Bool

/-- The Window class members set by the constructor. -/
structure Window where
  width : Int
  height : Int
  title : String
  window : Nat
  deriving DecidableEq, Repr

/-- Result of running the Window constructor: either a constructed object or
the message of the std::runtime_error it throws, plus the call trace. -/
structure WindowCtorResult where
  result : Except String Window
  calls : List GLCall
  deriving Repr

/-- `Window::Window(width, height, title)`: glfwInit (throw on failure), set
the three context hints, glfwCreateWindow (on NULL: glfwTerminate, then
throw), make the context current, gladLoadGLLoader (throw on failure), set
the viewport and register the resize callback. -/
def Window.construct (env : GLFWEnv) (width height : Int) (title : String) :
    WindowCtorResult :=
  if env.glfwInitOk = false then
    { result := .error MSG_GLFW_INIT_FAIL
      calls := [.glfwInit] }
  else
    let hintCalls : List GLCall :=
      [.glfwWindowHint GLFW_CONTEXT_VERSION_MAJOR 3,
       .glfwWindowHint GLFW_CONTEXT_VERSION_MINOR 3,
       .glfwWindowHint GLFW_OPENGL_PROFILE GLFW_OPENGL_CORE_PROFILE]
    match env.createdWindow with
    | none =>
      { result := .error MSG_GLFW_WINDOW_FAIL
        calls := [.glfwInit] ++ hintCalls
          ++ [.glfwCreateWindow width height title, .glfwTerminate] }
    | some h =>
      if env.gladOk = false then
        { result := .error MSG_GLAD_FAIL
          calls := [.glfwInit] ++ hintCalls
            ++ [.glfwCreateWindow width height title,
                .glfwMakeContextCurrent h, .gladLoadGLLoader] }
      else
        { result := .ok ⟨width, height, title, h⟩
          calls := [.glfwInit] ++ hintCalls
            ++ [.glfwCreateWindow width height title,
                .glfwMakeContextCurrent h, .gladLoadGLLoader,
                .glViewport 0 0 width height,
                .glfwSetFramebufferSizeCallback h] }

/-- A decoded image as stb_image returns it: dimensions, channel count and
the raw pixel bytes. -/
structure Image where
  width : Int
  height : Int
  channels : Int
  pixels : List Nat
  deriving DecidableEq, Repr

/-- The environment of the Texture constructor: the handle glGenTextures
hands out, the decode result of stbi_load per path (none models a NULL
return), and the indeterminate values the uninitialized width / height /
nrChannels members hold when stbi_load fails without writing them. -/
structure STBEnv where
  texHandle : Nat
  decode : String → Option Image
  junkWidth : Int
  junkHeight : Int
  junkChannels : Int

/-- The Texture class members set by the constructor. -/
structure Texture where
  ID : Nat
  unit : Nat
  width : Int
  height : Int
  nrChannels : Int
  deriving DecidableEq, Repr

/-- `Texture::load_image(filepath)`: stbi_load; on NULL print the error to
std::cerr and upload nothing; on success upload with glTexImage2D — both the
internal format and the data format hard-coded to GL_RGB, whatever the
decoded channel count — then glGenerateMipmap; finally stbi_image_free.
Returns the (width, height, nrChannels) member values, the std::cerr lines
and the call trace. -/
def Texture.load_image (env : STBEnv) (filepath : String) :
    (Int × Int × Int) × List String × List GLCall :=
  match env.decode filepath with
  | none =>
    ((env.junkWidth, env.junkHeight, env.junkChannels),
     [MSG_TEXTURE_FAIL],
     [.stbiLoad filepath, .stbiImageFree])
  | some img =>
    ((img.width, img.height, img.channels),
     [],
     [.stbiLoad filepath,
      .glTexImage2D GL_TEXTURE_2D 0 GL_RGB img.width img.height 0
        GL_RGB GL_UNSIGNED_BYTE,
      .glGenerateMipmap GL_TEXTURE_2D,
      .stbiImageFree])

/-- Result of running the Texture constructor. -/
structure TextureCtorResult where
  texture : Texture
  stdoutLog : List String
  stderrLog : List String
  calls : List GLCall
  deriving DecidableEq, Repr

/-- `Texture::Texture(filepath, textureUnit)`: generate and bind a handle,
set the four fixed wrap/filter parameters, enable vertical flip, call
load_image, and print the confirmation line to std::cout on every path. -/
def Texture.construct (env : STBEnv) (filepath : String)
    (textureUnit : Nat) : TextureCtorResult :=
  let li := Texture.load_image env filepath
  { texture := ⟨env.texHandle, textureUnit, li.1.1, li.1.2.1, li.1.2.2⟩
    stdoutLog := [MSG_TEXTURE_LOADED ++ filepath]
    stderrLog := li.2.1
    calls :=
      [.glGenTextures 1 env.texHandle,
       .glBindTexture GL_TEXTURE_2D env.texHandle,
       .glTexParameteri GL_TEXTURE_2D GL_TEXTURE_WRAP_S GL_REPEAT,
       .glTexParameteri GL_TEXTURE_2D GL_TEXTURE_WRAP_T GL_REPEAT,
       .glTexParameteri GL_TEXTURE_2D GL_TEXTURE_MIN_FILTER GL_LINEAR,
       .glTexParameteri GL_TEXTURE_2D GL_TEXTURE_MAG_FILTER GL_LINEAR,
       .stbiSetFlipVerticallyOnLoad true]
      ++ li.2.2 }

/-- Handles the Mesh constructor obtains from glGenVertexArrays /
glGenBuffers. -/
structure MeshEnv where
  vaoHandle : Nat
  vboHandle : Nat
  eboHandle : Nat

/-- The Mesh class members.  `indexcount` is a C++ `unsigned int`
initialized from `indices.size()` (a `size_t`), so its value is the length
reduced modulo 2^32. -/
structure Mesh where
  VAO : Nat
  VBO : Nat
  EBO : Nat
  indexcount : Nat
  deriving DecidableEq, Repr

/-- Result of running the Mesh constructor. -/
structure MeshCtorResult where
  mesh : Mesh
  calls : List GLCall
  deriving DecidableEq, Repr

/-- `Mesh::Mesh(vertices, indices)`: generate the VAO/VBO/EBO handles, bind
them, upload both data blocks verbatim with glBufferData (sizes in bytes,
4 bytes per element), configure the three fixed vertex attribute slots
(stride 32 bytes = 8 floats; offsets 0, 12, 24 bytes = 0, 3, 6 floats), and
unbind.  No validation of the index values is performed. -/
def Mesh.construct (env : MeshEnv) (vertices : List GLfloat)
    (indices : List Nat) : MeshCtorResult :=
  { mesh := ⟨env.vaoHandle, env.vboHandle, env.eboHandle,
             indices.length % 2 ^ 32⟩
    calls :=
      [.glGenVertexArrays 1 env.vaoHandle,
       .glGenBuffers 1 env.vboHandle,
       .glGenBuffers 1 env.eboHandle,
       .glBindVertexArray env.vaoHandle,
       .glBindBuffer GL_ARRAY_BUFFER env.vboHandle,
       .glBufferDataF GL_ARRAY_BUFFER (vertices.length * 4) vertices
         GL_STATIC_DRAW,
       .glBindBuffer GL_ELEMENT_ARRAY_BUFFER env.eboHandle,
       .glBufferDataU GL_ELEMENT_ARRAY_BUFFER (indices.length * 4) indices
         GL_STATIC_DRAW,
       .glVertexAttribPointer 0 3 GL_FLOAT false 32 0,
       .glEnableVertexAttribArray 0,
       .glVertexAttribPointer 1 3 GL_FLOAT false 32 12,
       .glEnableVertexAttribArray 1,
       .glVertexAttribPointer 2 2 GL_FLOAT false 32 24,
       .glEnableVertexAttribArray 2,
       .glBindBuffer GL_ARRAY_BUFFER 0,
       .glBindVertexArray 0,
       .glBindBuffer GL_ELEMENT_ARRAY_BUFFER 0] }

/-- `Mesh::bind_VAO() const`: binds the VAO; the object is not modified
(const member function). -/
def Mesh.bind_VAO (m : Mesh) : List GLCall :=
  [.glBindVertexArray m.VAO]

/-- `Mesh::unbind_VAO() const`: binds VAO 0; the object is not modified. -/
def Mesh.unbind_VAO (_m : Mesh) : List GLCall :=
  [.glBindVertexArray 0]

/-- `Mesh::getIndexCount() const`: returns the stored index count. -/
def Mesh.getIndexCount (m : Mesh) : Nat :=
  m.indexcount

/-- A bind or unbind operation on a mesh, for stating closure of the index
count under arbitrary operation sequences. -/
inductive MeshOp where
  | bindVAO
  | unbindVAO
  deriving DecidableEq, Repr

/-- Run one operation: the const member functions emit GL calls and return
the object unchanged. -/
def Mesh.applyOp (m : Mesh) (op : MeshOp) : Mesh × List GLCall :=
  match op with
  | .bindVAO => (m, m.bind_VAO)
  | .unbindVAO => (m, m.unbind_VAO)

/-- Run a sequence of bind/unbind operations, threading the mesh through. -/
def Mesh.runOps (m : Mesh) (ops : List MeshOp) : Mesh :=
  match ops with
  | [] => m
  | op :: rest => Mesh.runOps (m.applyOp op).1 rest

/-- Recognizer for glVertexAttribPointer calls in a trace. -/
def isAttribPointerCall : GLCall → Bool
  | .glVertexAttribPointer _ _ _ _ _ _ => true
  | _ => false

/-- Recognizer for glEnableVertexAttribArray calls in a trace. -/
def isEnableAttribCall : GLCall → Bool
  | .glEnableVertexAttribArray _ => true
  | _ => false

/- Concrete environments used to witness the theorems below. -/

/-- A vertex shader path. -/
def wVP : String := "shaders/vertex.glsl"

/-- A fragment shader path. -/
def wFP : String := "shaders/fragment.glsl"

/-- A filesystem on which every open fails. -/
def wFSFail : FileSys := ⟨fun _ => none⟩

/-- Some shader source text. -/
def wSrc : String := "void main() ..."

/-- A filesystem on which every open succeeds. -/
def wFSOk : FileSys := ⟨fun _ => some wSrc⟩

/-- A compiler diagnostic text. -/
def wDiag : String := "0:1: error: expected identifier"

/-- A driver on which both compiles and the link fail. -/
def wGLFail : GLDriver :=
  ⟨10, 11, 12, false, false, wDiag, wDiag, false, wDiag, fun _ => none⟩

/-- A driver on which everything succeeds but no uniform is active. -/
def wGLOk : GLDriver :=
  ⟨10, 11, 12, true, true, "", "", true, "", fun _ => none⟩

/-- A uniform name that matches no active uniform of `wGLOk` / `wGLFail`. -/
def wName : String := "missingUniform"

/-- An empty uniform store. -/
def wState : GLState := ⟨[]⟩

/-- A window title. -/
def wTitle : String := "window"

/-- A GLFW environment on which window creation returns NULL. -/
def wGLFWNoWindow : GLFWEnv := ⟨true, none, true⟩

/-- A GLFW environment on which every step succeeds. -/
def wGLFWOk : GLFWEnv := ⟨true, some 5, true⟩

/-- A texture file path. -/
def wTexPath : String := "updates/wall.jpg"

/-- An stb environment on which every decode fails. -/
def wTexEnvFail : STBEnv := ⟨7, fun _ => none, 0, 0, 0⟩

/-- A decoded 4-channel (RGBA) image. -/
def wImg : Image := ⟨64, 32, 4, [0, 1, 2, 3]⟩

/-- An stb environment that decodes every path to the 4-channel `wImg`. -/
def wTexEnvOk : STBEnv := ⟨9, fun _ => some wImg, 0, 0, 0⟩

/-- Handles for a mesh construction. -/
def wMeshEnv : MeshEnv := ⟨4, 5, 6⟩

/-- A vertex block of two 8-float records. -/
def wVerts : List GLfloat :=
  [1, 2, 3, 4, 5, 6, 7, 8, 9, 10, 11, 12, 13, 14, 15, 16]

/-- An index list (its value 9 is out of range for `wVerts`). -/
def wIdx : List Nat := [0, 1, 9]

/-- A bind/unbind sequence. -/
def wOps : List MeshOp := [.bindVAO, .unbindVAO, .bindVAO, .unbindVAO]

/-- Truncation bound of the info-log read: with a 512-byte buffer at most
511 characters of the log are fetched. -/
theorem infoLogRead_length_le (log : String) (bufSize : Nat) :
    (infoLogRead log bufSize).length ≤ bufSize - 1 := by
  simp only [infoLogRead, String.length, List.length_take]
  omega

/-- The index count the constructor stores is the index-list length as
narrowed to the `unsigned int` member. -/
theorem Mesh.getIndexCount_construct (env : MeshEnv)
    (vertices : List GLfloat) (indices : List Nat) :
    (Mesh.construct env vertices indices).mesh.getIndexCount
      = indices.length % 2 ^ 32 :=
  rfl

/-- The const member functions bind_VAO / unbind_VAO leave the Mesh object
unchanged, so any operation sequence returns the mesh as constructed. -/
theorem Mesh.runOps_eq_self (m : Mesh) (ops : List MeshOp) :
    Mesh.runOps m ops = m := by
  induction ops generalizing m with
  | nil => rfl
  | cons op rest ih => cases op <;> simpa [Mesh.runOps, Mesh.applyOp] using ih m

/-- C1: For every pair of shader source inputs, the Shader constructor
checks the compile-status flag of each stage; when a stage's flag reports
failure it fetches (with a 512-byte buffer, hence at most 511 characters)
and logs that stage's diagnostic text without aborting; it links the two
stages regardless, checks the link-status flag, logs identically on link
failure, and in every case returns a constructed object carrying the
program handle — no exception is thrown on compile or link failure. -/
theorem shader_ctor_compile_link_error_handling (fs : FileSys)
    (gl : GLDriver) (vertexPath fragmentPath : String) :
    (Shader.construct fs gl vertexPath fragmentPath).shader = ⟨gl.progHandle⟩
    ∧ GLCall.glGetShaderiv gl.vsHandle GL_COMPILE_STATUS
        ∈ (Shader.construct fs gl vertexPath fragmentPath).calls
    ∧ GLCall.glGetShaderiv gl.fsHandle GL_COMPILE_STATUS
        ∈ (Shader.construct fs gl vertexPath fragmentPath).calls
    ∧ GLCall.glLinkProgram gl.progHandle
        ∈ (Shader.construct fs gl vertexPath fragmentPath).calls
    ∧ GLCall.glGetProgramiv gl.progHandle GL_LINK_STATUS
        ∈ (Shader.construct fs gl vertexPath fragmentPath).calls
    ∧ (gl.vertexCompileOk = false →
        GLCall.glGetShaderInfoLog gl.vsHandle 512
          ∈ (Shader.construct fs gl vertexPath fragmentPath).calls
        ∧ MSG_VERTEX_COMPILE_FAIL ++ infoLogRead gl.vertexInfoLog 512
          ∈ (Shader.construct fs gl vertexPath fragmentPath).stderrLog)
    ∧ (gl.fragmentCompileOk = false →
        GLCall.glGetShaderInfoLog gl.fsHandle 512
          ∈ (Shader.construct fs gl vertexPath fragmentPath).calls
        ∧ MSG_FRAGMENT_COMPILE_FAIL ++ infoLogRead gl.fragmentInfoLog 512
          ∈ (Shader.construct fs gl vertexPath fragmentPath).stderrLog)
    ∧ (gl.linkOk = false →
        GLCall.glGetProgramInfoLog gl.progHandle 512
          ∈ (Shader.construct fs gl vertexPath fragmentPath).calls
        ∧ MSG_LINK_FAIL ++ infoLogRead gl.linkInfoLog 512
          ∈ (Shader.construct fs gl vertexPath fragmentPath).stderrLog)
    ∧ (infoLogRead gl.vertexInfoLog 512).length ≤ 511
    ∧ (infoLogRead gl.fragmentInfoLog 512).length ≤ 511
    ∧ (infoLogRead gl.linkInfoLog 512).length ≤ 511 := by
  refine ⟨rfl, ?_, ?_, ?_, ?_, fun hv => ⟨?_, ?_⟩, fun hf => ⟨?_, ?_⟩,
      fun hl => ⟨?_, ?_⟩, ?_, ?_, ?_⟩
  · simp [Shader.construct]
  · simp [Shader.construct]
  · simp [Shader.construct]
  · simp [Shader.construct]
  · simp [Shader.construct, hv]
  · simp [Shader.construct, hv]
  · simp [Shader.construct, hf]
  · simp [Shader.construct, hf]
  · simp [Shader.construct, hl]
  · simp [Shader.construct, hl]
  · exact infoLogRead_length_le gl.vertexInfoLog 512
  · exact infoLogRead_length_le gl.fragmentInfoLog 512
  · exact infoLogRead_length_le gl.linkInfoLog 512

/-- C1 witness: on a driver whose two compiles and link all fail, the
constructor logs the vertex diagnostic and still returns the object with
the program handle. -/
theorem shader_ctor_compile_link_error_handling_witness :
    wGLFail.vertexCompileOk = false
    ∧ wGLFail.linkOk = false
    ∧ MSG_VERTEX_COMPILE_FAIL ++ infoLogRead wGLFail.vertexInfoLog 512
        ∈ (Shader.construct wFSOk wGLFail wVP wFP).stderrLog
    ∧ MSG_LINK_FAIL ++ infoLogRead wGLFail.linkInfoLog 512
        ∈ (Shader.construct wFSOk wGLFail wVP wFP).stderrLog
    ∧ (Shader.construct wFSOk wGLFail wVP wFP).shader = ⟨wGLFail.progHandle⟩ :=
  ⟨rfl, rfl,
   ((shader_ctor_compile_link_error_handling wFSOk wGLFail wVP wFP).2.2.2.2.2.1
      rfl).2,
   ((shader_ctor_compile_link_error_handling wFSOk wGLFail wVP
      wFP).2.2.2.2.2.2.2.1 rfl).2,
   (shader_ctor_compile_link_error_handling wFSOk wGLFail wVP wFP).1⟩

/-- C9: When either shader file fails to open, the constructor logs the
file-read error and proceeds with empty source strings for both stages (the
assignments of both code strings come after both reads in the try block, so
the exception skips them both); compilation of both stages and linking still
take place. -/
theorem shader_ctor_file_read_failure (fs : FileSys) (gl : GLDriver)
    (vertexPath fragmentPath : String)
    (hfail : fs.readFile vertexPath = none
      ∨ fs.readFile fragmentPath = none) :
    MSG_FILE_READ_FAIL ∈ (Shader.construct fs gl vertexPath fragmentPath).stderrLog
    ∧ GLCall.glShaderSource gl.vsHandle 1 ""
        ∈ (Shader.construct fs gl vertexPath fragmentPath).calls
    ∧ GLCall.glShaderSource gl.fsHandle 1 ""
        ∈ (Shader.construct fs gl vertexPath fragmentPath).calls
    ∧ GLCall.glCompileShader gl.vsHandle
        ∈ (Shader.construct fs gl vertexPath fragmentPath).calls
    ∧ GLCall.glCompileShader gl.fsHandle
        ∈ (Shader.construct fs gl vertexPath fragmentPath).calls
    ∧ GLCall.glLinkProgram gl.progHandle
        ∈ (Shader.construct fs gl vertexPath fragmentPath).calls := by
  have hrd : readShaderPair fs vertexPath fragmentPath
      = ("", "", [MSG_FILE_READ_FAIL]) := by
    rcases hfail with h1 | h2
    · simp [readShaderPair, h1]
    · rcases hv : fs.readFile vertexPath with _ | vcode
      · simp [readShaderPair, hv]
      · simp [readShaderPair, hv, h2]
  refine ⟨?_, ?_, ?_, ?_, ?_, ?_⟩ <;> simp [Shader.construct, hrd]

/-- C9 witness: on a filesystem where every open fails, the file-read error
is logged and the vertex stage is compiled from the empty string. -/
theorem shader_ctor_file_read_failure_witness :
    wFSFail.readFile wVP = none
    ∧ MSG_FILE_READ_FAIL ∈ (Shader.construct wFSFail wGLOk wVP wFP).stderrLog
    ∧ GLCall.glShaderSource wGLOk.vsHandle 1 ""
        ∈ (Shader.construct wFSFail wGLOk wVP wFP).calls :=
  ⟨rfl,
   (shader_ctor_file_read_failure wFSFail wGLOk wVP wFP (Or.inl rfl)).1,
   (shader_ctor_file_read_failure wFSFail wGLOk wVP wFP (Or.inl rfl)).2.1⟩

/-- C2: The Window constructor throws a runtime error (returns no object)
whenever glfwInit fails, window creation fails (also calling glfwTerminate
before raising), or the GL function-table load fails; when every step
succeeds it returns the constructed window object. -/
theorem window_ctor_fail_fast (env : GLFWEnv) (width height : Int)
    (title : String) :
    (env.glfwInitOk = false →
      (Window.construct env width height title).result
        = .error MSG_GLFW_INIT_FAIL)
    ∧ (env.glfwInitOk = true → env.createdWindow = none →
      (Window.construct env width height title).result
        = .error MSG_GLFW_WINDOW_FAIL
      ∧ GLCall.glfwTerminate ∈ (Window.construct env width height title).calls)
    ∧ (∀ h, env.glfwInitOk = true → env.createdWindow = some h →
        env.gladOk = false →
      (Window.construct env width height title).result = .error MSG_GLAD_FAIL)
    ∧ (∀ h, env.glfwInitOk = true → env.createdWindow = some h →
        env.gladOk = true →
      (Window.construct env width height title).result
        = .ok ⟨width, height, title, h⟩) := by
  refine ⟨fun hi => ?_, fun hi hw => ⟨?_, ?_⟩, fun h hi hw hg => ?_,
      fun h hi hw hg => ?_⟩
  · simp [Window.construct, hi]
  · simp [Window.construct, hi, hw]
  · simp [Window.construct, hi, hw]
  · simp [Window.construct, hi, hw, hg]
  · simp [Window.construct, hi, hw, hg]

/-- C2 witness: with window creation returning NULL the constructor
terminates the library and raises; with every step succeeding it returns
the object. -/
theorem window_ctor_fail_fast_witness :
    wGLFWNoWindow.glfwInitOk = true
    ∧ wGLFWNoWindow.createdWindow = none
    ∧ (Window.construct wGLFWNoWindow 800 600 wTitle).result
        = .error MSG_GLFW_WINDOW_FAIL
    ∧ GLCall.glfwTerminate ∈ (Window.construct wGLFWNoWindow 800 600 wTitle).calls
    ∧ (Window.construct wGLFWOk 800 600 wTitle).result
        = .ok ⟨800, 600, wTitle, 5⟩ :=
  ⟨rfl, rfl,
   ((window_ctor_fail_fast wGLFWNoWindow 800 600 wTitle).2.1 rfl rfl).1,
   ((window_ctor_fail_fast wGLFWNoWindow 800 600 wTitle).2.1 rfl rfl).2,
   (window_ctor_fail_fast wGLFWOk 800 600 wTitle).2.2.2 5 rfl rfl rfl⟩

/-- C3: When the image decode fails, the Texture constructor logs exactly
the decode error, performs no glTexImage2D upload and no mipmap generation,
deletes nothing (the generated handle stays allocated and is stored in the
object), and completes construction returning the object. -/
theorem texture_decode_failure_behavior (env : STBEnv) (filepath : String)
    (textureUnit : Nat) (hfail : env.decode filepath = none) :
    (Texture.construct env filepath textureUnit).stderrLog = [MSG_TEXTURE_FAIL]
    ∧ (∀ target level ifmt w h border format typ,
        GLCall.glTexImage2D target level ifmt w h border format typ
          ∉ (Texture.construct env filepath textureUnit).calls)
    ∧ (∀ target, GLCall.glGenerateMipmap target
          ∉ (Texture.construct env filepath textureUnit).calls)
    ∧ GLCall.glGenTextures 1 env.texHandle
        ∈ (Texture.construct env filepath textureUnit).calls
    ∧ (∀ n h, GLCall.glDeleteTextures n h
          ∉ (Texture.construct env filepath textureUnit).calls)
    ∧ (Texture.construct env filepath textureUnit).texture.ID = env.texHandle
    ∧ (Texture.construct env filepath textureUnit).texture.unit
        = textureUnit := by
  refine ⟨?_, ?_, ?_, ?_, ?_, ?_, ?_⟩ <;>
    simp [Texture.construct, Texture.load_image, hfail]

/-- C3 witness: on an environment where every decode fails, the error line
is printed and the object still carries the generated handle. -/
theorem texture_decode_failure_behavior_witness :
    wTexEnvFail.decode wTexPath = none
    ∧ (Texture.construct wTexEnvFail wTexPath 0).stderrLog = [MSG_TEXTURE_FAIL]
    ∧ (Texture.construct wTexEnvFail wTexPath 0).texture.ID
        = wTexEnvFail.texHandle :=
  ⟨rfl,
   (texture_decode_failure_behavior wTexEnvFail wTexPath 0 rfl).1,
   (texture_decode_failure_behavior wTexEnvFail wTexPath 0 rfl).2.2.2.2.2.1⟩

/-- C8: The Texture constructor always sets repeat wrapping on both axes and
linear filtering for both minification and magnification (the parameters are
fixed, independent of the arguments), and on decode success uploads the
pixels with the GL_RGB format — both internal format and data format —
whatever the decoded image's channel count, then generates mipmaps. -/
theorem texture_fixed_params_rgb_upload (env : STBEnv) (filepath : String)
    (textureUnit : Nat) :
    GLCall.glTexParameteri GL_TEXTURE_2D GL_TEXTURE_WRAP_S GL_REPEAT
      ∈ (Texture.construct env filepath textureUnit).calls
    ∧ GLCall.glTexParameteri GL_TEXTURE_2D GL_TEXTURE_WRAP_T GL_REPEAT
      ∈ (Texture.construct env filepath textureUnit).calls
    ∧ GLCall.glTexParameteri GL_TEXTURE_2D GL_TEXTURE_MIN_FILTER GL_LINEAR
      ∈ (Texture.construct env filepath textureUnit).calls
    ∧ GLCall.glTexParameteri GL_TEXTURE_2D GL_TEXTURE_MAG_FILTER GL_LINEAR
      ∈ (Texture.construct env filepath textureUnit).calls
    ∧ (∀ img, env.decode filepath = some img →
        GLCall.glTexImage2D GL_TEXTURE_2D 0 GL_RGB img.width img.height 0
            GL_RGB GL_UNSIGNED_BYTE
          ∈ (Texture.construct env filepath textureUnit).calls
        ∧ GLCall.glGenerateMipmap GL_TEXTURE_2D
          ∈ (Texture.construct env filepath textureUnit).calls) := by
  refine ⟨?_, ?_, ?_, ?_, fun img himg => ⟨?_, ?_⟩⟩ <;>
    simp [Texture.construct, Texture.load_image]
  · rw [himg]; simp
  · rw [himg]; simp

/-- C8 witness: a 4-channel (RGBA) image is still uploaded with GL_RGB as
both internal and data format, and the fixed parameters are set. -/
theorem texture_fixed_params_rgb_upload_witness :
    wTexEnvOk.decode wTexPath = some wImg
    ∧ wImg.channels = 4
    ∧ GLCall.glTexImage2D GL_TEXTURE_2D 0 GL_RGB wImg.width wImg.height 0
        GL_RGB GL_UNSIGNED_BYTE ∈ (Texture.construct wTexEnvOk wTexPath 1).calls
    ∧ GLCall.glTexParameteri GL_TEXTURE_2D GL_TEXTURE_WRAP_S GL_REPEAT
        ∈ (Texture.construct wTexEnvOk wTexPath 1).calls :=
  ⟨rfl, rfl,
   ((texture_fixed_params_rgb_upload wTexEnvOk wTexPath 1).2.2.2.2 wImg
      rfl).1,
   (texture_fixed_params_rgb_upload wTexEnvOk wTexPath 1).1⟩

/-- C10: The Texture constructor prints the confirmation line
"loaded texture: <filepath>" to standard output on every execution path —
the environment (hence the decode outcome) is arbitrary here, so the
message also appears when decoding failed and nothing was uploaded. -/
theorem texture_ctor_always_prints_loaded (env : STBEnv) (filepath : String)
    (textureUnit : Nat) :
    (Texture.construct env filepath textureUnit).stdoutLog
      = [MSG_TEXTURE_LOADED ++ filepath] :=
  rfl

/-- C4: Each of setBool, setInt, setFloat performs a fresh
glGetUniformLocation lookup by name on the program handle on every call —
the emitted trace of every single call begins with the lookup, and the
Shader object carries no name-to-location map (its only member is the
program handle) — and then writes the value; when the name matches no
active uniform the location is -1 and the write is a silent no-op: the
uniform store is returned unchanged, no error is produced, and the call
trace is still just the lookup plus the ignored write. -/
theorem uniform_setters_fresh_lookup_silent_noop (sh : Shader)
    (gl : GLDriver) (name : String) (b : Bool) (i : Int) (f : GLfloat)
    (st : GLState) :
    ((sh.setBool gl name b st).2
      = [.glGetUniformLocation sh.ID name,
         .glUniform1i (lookupUniformLocation gl name) (if b then 1 else 0)])
    ∧ ((sh.setInt gl name i st).2
      = [.glGetUniformLocation sh.ID name,
         .glUniform1i (lookupUniformLocation gl name) i])
    ∧ ((sh.setFloat gl name f st).2
      = [.glGetUniformLocation sh.ID name,
         .glUniform1f (lookupUniformLocation gl name) f])
    ∧ (gl.activeUniforms name = none →
        lookupUniformLocation gl name = -1
        ∧ (sh.setBool gl name b st).1 = st
        ∧ (sh.setInt gl name i st).1 = st
        ∧ (sh.setFloat gl name f st).1 = st) := by
  refine ⟨rfl, rfl, rfl, fun habs => ⟨?_, ?_, ?_, ?_⟩⟩ <;>
    simp [Shader.setBool, Shader.setInt, Shader.setFloat,
      glUniform1iImpl, glUniform1fImpl, lookupUniformLocation, habs]

/-- C4 witness: on a program with no active uniforms every setter leaves
the uniform store untouched while still issuing the fresh lookup. -/
theorem uniform_setters_fresh_lookup_silent_noop_witness :
    wGLOk.activeUniforms wName = none
    ∧ (Shader.setInt ⟨12⟩ wGLOk wName 5 wState).1 = wState
    ∧ (Shader.setFloat ⟨12⟩ wGLOk wName 77 wState).1 = wState
    ∧ (Shader.setInt ⟨12⟩ wGLOk wName 5 wState).2
        = [.glGetUniformLocation 12 wName,
           .glUniform1i (lookupUniformLocation wGLOk wName) 5] :=
  ⟨rfl,
   ((uniform_setters_fresh_lookup_silent_noop ⟨12⟩ wGLOk wName true 5 77
      wState).2.2.2 rfl).2.2.1,
   ((uniform_setters_fresh_lookup_silent_noop ⟨12⟩ wGLOk wName true 5 77
      wState).2.2.2 rfl).2.2.2,
   (uniform_setters_fresh_lookup_silent_noop ⟨12⟩ wGLOk wName true 5 77
      wState).2.1⟩

/-- C5 counterexample: `indexcount` is a C++ `unsigned int` initialized from
`indices.size()` (a 64-bit `size_t`), so for an index list of 2^32 entries
the stored count wraps to 0 and `getIndexCount()` does not return the list
length.  The claim as stated is therefore false. -/
theorem mesh_index_count_counterexample :
    ¬ ((Mesh.construct wMeshEnv [] (List.replicate (2 ^ 32) 0)).mesh.getIndexCount
        = (List.replicate (2 ^ 32) 0).length) := by
  intro h
  rw [Mesh.getIndexCount_construct, List.length_replicate, Nat.mod_self] at h
  exact absurd h.symm (by norm_num)

/-- C5 (amended): for every index list of fewer than 2^32 entries — every
list whose length survives the `unsigned int` narrowing — the stored index
count equals the list length at construction and is never mutated:
`getIndexCount()` still returns it after any sequence of bind/unbind
operations. -/
theorem mesh_index_count_invariant (env : MeshEnv)
    (vertices : List GLfloat) (indices : List Nat) (ops : List MeshOp)
    (hlen : indices.length < 2 ^ 32) :
    (Mesh.runOps (Mesh.construct env vertices indices).mesh ops).getIndexCount
      = indices.length := by
  rw [Mesh.runOps_eq_self]
  show indices.length % 2 ^ 32 = indices.length
  exact Nat.mod_eq_of_lt hlen

/-- C5 witness: a 3-entry index list keeps its count 3 through a
bind/unbind/bind/unbind sequence. -/
theorem mesh_index_count_invariant_witness :
    wIdx.length < 2 ^ 32
    ∧ (Mesh.runOps (Mesh.construct wMeshEnv wVerts wIdx).mesh wOps).getIndexCount
        = wIdx.length :=
  ⟨by decide,
   mesh_index_count_invariant wMeshEnv wVerts wIdx wOps (by decide)⟩

/-- C6: For every vertex list and index list — in particular ones whose
index values are out of range for the vertex count, since nothing relates
the two arguments here — the Mesh constructor uploads both blocks verbatim
(the glBufferData calls carry the argument lists unchanged, with byte sizes
4 * length) and succeeds, returning the mesh with all three handles; no
validation and no error path exists. -/
theorem mesh_ctor_uploads_verbatim_no_validation (env : MeshEnv)
    (vertices : List GLfloat) (indices : List Nat) :
    GLCall.glBufferDataF GL_ARRAY_BUFFER (vertices.length * 4) vertices
        GL_STATIC_DRAW ∈ (Mesh.construct env vertices indices).calls
    ∧ GLCall.glBufferDataU GL_ELEMENT_ARRAY_BUFFER (indices.length * 4)
        indices GL_STATIC_DRAW ∈ (Mesh.construct env vertices indices).calls
    ∧ (Mesh.construct env vertices indices).mesh
        = ⟨env.vaoHandle, env.vboHandle, env.eboHandle,
           indices.length % 2 ^ 32⟩ := by
  refine ⟨?_, ?_, rfl⟩ <;> simp [Mesh.construct]

/-- C7: The Mesh constructor configures exactly three vertex-attribute
slots with the fixed interleaved 8-float record — slot 0: 3 floats at byte
offset 0, slot 1: 3 floats at byte offset 12 (3 floats), slot 2: 2 floats
at byte offset 24 (6 floats), all with byte stride 32 (8 floats) — whatever
the constructor arguments are. -/
theorem mesh_ctor_fixed_attribute_layout (env : MeshEnv)
    (vertices : List GLfloat) (indices : List Nat) :
    ((Mesh.construct env vertices indices).calls.filter isAttribPointerCall
      = [.glVertexAttribPointer 0 3 GL_FLOAT false 32 0,
         .glVertexAttribPointer 1 3 GL_FLOAT false 32 12,
         .glVertexAttribPointer 2 2 GL_FLOAT false 32 24])
    ∧ ((Mesh.construct env vertices indices).calls.filter isEnableAttribCall
      = [.glEnableVertexAttribArray 0, .glEnableVertexAttribArray 1,
         .glEnableVertexAttribArray 2]) :=
  ⟨rfl, rfl⟩

end GLEngine
